import Mathlib

/-!
Shallow embedding of the request-routing and cache-consistency engine of
`sw.js` (CFM Actualizações service worker, version 3.0).

Modelling conventions:
* A JS `Response` is a record of body bytes (as a string), status, status
  text and headers.  Header values are either ordinary strings (`HVal.str`)
  or the engine-injected freshness timestamp (`HVal.time t`), which models
  the string `new Date(t).toISOString()`: that encoding is injective and
  order-preserving in `t`, and `new Date(s)` recovers `t`, so representing
  it by its preimage is faithful.
* Times are naturals, in milliseconds since the epoch (as in JS `Date`).
  The check `(now - cachedTime) / (1000 * 60) < 5` of `handleGoogleScript`
  is floating point in JS; for integral millisecond inputs it is exactly
  equivalent to `now - cachedTime < 300000`, which is how it is embedded.
* The cache storage (`caches`) is a list of named partitions in creation
  order; `caches.match` scans partitions in that order.  `cache.put`
  replaces the entry with the same key.
* A settled JS promise is `JsOutcome`: `resolved v` where `v` is `some`
  response or `none` (the value `undefined`), or `rejected` (the promise
  rejected).  Each strategy function takes the network outcome for the
  request as an explicit `FetchOutcome` argument and returns its settled
  outcome together with the final cache-storage state once any
  fire-and-forget background work has also settled.
* `event.request.url` in a service worker is the serialized request URL,
  so it coincides with `new URL(event.request.url).href`; the model keeps
  one `Url` record per request and uses `url.href` for both.
-/

namespace CFM

/-- Substring test, embedding JS `String.prototype.includes`. -/
def strContains (s pat : String) : Bool :=
  s.toList.tails.any (fun t => pat.toList.isPrefixOf t)

/-- Suffix test, embedding the anchored extension regex test on a pathname. -/
def strEndsWith (s pat : String) : Bool :=
  pat.toList.isSuffixOf s.toList

/-- A header value: an ordinary string, or the engine-injected timestamp
`new Date(t).toISOString()` represented by its millisecond preimage `t`. -/
inductive HVal where
  | str (s : String)
  | time (t : Nat)
deriving DecidableEq, Repr

abbrev HeaderMap := List (String × HVal)

/-- JS `headers.get(k)`: the value stored under `k`, if any. -/
def hget : HeaderMap → String → Option HVal
  | [], _ => none
  | p :: rest, k => if p.1 == k then some p.2 else hget rest k

/-- JS `headers.set(k, v)`: replace the binding of `k` by `v`, appending it
when `k` is not bound yet. -/
def hset : HeaderMap → String → HVal → HeaderMap
  | [], k, v => [(k, v)]
  | p :: rest, k, v => if p.1 == k then (k, v) :: rest else p :: hset rest k v

/-- A response as stored and served by the engine. -/
structure Response where
  body : String
  status : Nat
  statusText : String
  headers : HeaderMap
deriving DecidableEq, Repr

/-- JS `Response.ok`: status in the range 200..299. -/
def Response.isOk (r : Response) : Bool :=
  200 ≤ r.status && r.status ≤ 299

/-- Outcome of the network fetch for one request. -/
inductive FetchOutcome where
  | ok (r : Response)
  | fail
deriving DecidableEq, Repr

/-- Settled outcome of a strategy promise: resolved with a response,
resolved with `undefined`, or rejected. -/
inductive JsOutcome where
  | resolved (v : Option Response)
  | rejected
deriving DecidableEq, Repr

/-- Parsed URL of a request (`new URL(request.url)`); `href` is the full
serialized URL, which is also the value of `request.url` itself. -/
structure Url where
  href : String
  protocol : String
  origin : String
  pathname : String
  search : String
deriving DecidableEq, Repr

/-- Inbound request descriptor. -/
structure Request where
  url : Url
  mode : String
deriving DecidableEq, Repr

/-- One cache partition: entries keyed by serialized request URL. -/
abbrev Partition := List (String × Response)

/-- `cache.match(key)` on a single partition. -/
def Partition.matchKey : Partition → String → Option Response
  | [], _ => none
  | e :: rest, k => if e.1 == k then some e.2 else Partition.matchKey rest k

/-- `cache.put(key, r)`: replace the entry with the same key, appending it
when the key is not present yet. -/
def Partition.putKey : Partition → String → Response → Partition
  | [], k, r => [(k, r)]
  | e :: rest, k, r =>
      if e.1 == k then (k, r) :: rest else e :: Partition.putKey rest k r

/-- The cache storage: named partitions in creation order. -/
abbrev CacheStore := List (String × Partition)

/-- `caches.open(name)`: create the partition at the end of the storage
order if it does not exist yet. -/
def CacheStore.openCache : CacheStore → String → CacheStore
  | [], name => [(name, [])]
  | c :: rest, name =>
      if c.1 == name then c :: rest else c :: CacheStore.openCache rest name

/-- Content of a named partition (empty if the partition does not exist). -/
def CacheStore.partitionOf : CacheStore → String → Partition
  | [], _ => []
  | c :: rest, name =>
      if c.1 == name then c.2 else CacheStore.partitionOf rest name

/-- Lookup of a key inside one named partition. -/
def CacheStore.lookupKey (s : CacheStore) (name k : String) : Option Response :=
  (s.partitionOf name).matchKey k

/-- `caches.open(name)` followed by `cache.put(k, r)`. -/
def CacheStore.put : CacheStore → String → String → Response → CacheStore
  | [], name, k, r => [(name, [(k, r)])]
  | c :: rest, name, k, r =>
      if c.1 == name then (c.1, c.2.putKey k r) :: rest
      else c :: CacheStore.put rest name k r

/-- `caches.match(key)`: first hit scanning partitions in storage order. -/
def CacheStore.globalMatch : CacheStore → String → Option Response
  | [], _ => none
  | c :: rest, k =>
      match c.2.matchKey k with
      | some r => some r
      | none => CacheStore.globalMatch rest k

/-! Engine configuration constants (top of `sw.js`). -/

def CACHE_NAME : String := "cfm-updates-v3.0"

def STATIC_CACHE : String := "cfm-static-v3.0"

def API_CACHE : String := "cfm-api-v3.0"

def OFFLINE_CACHE : String := "cfm-offline-v3.0"

/-- The static asset manifest `STATIC_ASSETS`. -/
def STATIC_ASSETS : List String :=
  [ "./",
    "./index.html",
    "./offline.html",
    "./termos.html",
    "./politicas.html",
    "./sound.mp3",
    "./manifest.json",
    "./icon-192.png",
    "./icon-512.png",
    "./pwa-fullscreen.css",
    "https://fonts.googleapis.com/css2?family=Roboto:wght@300;400;500;700&display=swap",
    "https://cdnjs.cloudflare.com/ajax/libs/font-awesome/6.4.0/css/all.min.css",
    "./fallback-logo.png",
    "./fallback-bg.jpg" ]

/-! Strategy 1: navigation (Network First with cache fallback),
`handleNavigation` in `sw.js`. -/

/-- The Content-Type check `headers.get("Content-Type")?.includes("text/html")`:
a missing header short-circuits to a falsy value. -/
def contentTypeIsHtml (r : Response) : Bool :=
  match hget r.headers "Content-Type" with
  | some (.str s) => strContains s "text/html"
  | _ => false

structure NavResult where
  outcome : JsOutcome
  store : CacheStore
deriving DecidableEq, Repr

/-- `handleNavigation(request)`: network first; on success store HTML
responses in `CACHE_NAME`; on failure fall back to `caches.match` over all
partitions, and finally to the seeded offline document. -/
def handleNavigation (store : CacheStore) (req : Request) (net : FetchOutcome) :
    NavResult :=
  match net with
  | .ok r =>
      let store2 := if contentTypeIsHtml r then store.put CACHE_NAME req.url.href r
                    else store
      ⟨.resolved (some r), store2⟩
  | .fail =>
      match store.globalMatch req.url.href with
      | some c => ⟨.resolved (some c), store⟩
      | none =>
          let store2 := store.openCache OFFLINE_CACHE
          ⟨.resolved (store2.lookupKey OFFLINE_CACHE "./offline.html"), store2⟩

/-! Strategy 2: static assets (Cache First with background refresh),
`cacheFirstWithUpdate` in `sw.js`.  The background `fetchPromise` carries a
`.catch` handler that swallows a rejection into the value `undefined`, so
the promise returned on a cold miss never rejects. -/

structure CFResult where
  outcome : JsOutcome
  store : CacheStore
deriving DecidableEq, Repr

def cacheFirstWithUpdate (store : CacheStore) (req : Request) (net : FetchOutcome) :
    CFResult :=
  let cached := store.globalMatch req.url.href
  let store2 :=
    match net with
    | .ok r => if r.status == 200 then store.put STATIC_CACHE req.url.href r
               else store
    | .fail => store
  match cached with
  | some c => ⟨.resolved (some c), store2⟩
  | none =>
      match net with
      | .ok r => ⟨.resolved (some r), store2⟩
      | .fail => ⟨.resolved none, store2⟩

/-! Strategy 3: generic API (Stale While Revalidate),
`staleWhileRevalidate` in `sw.js`.  Its background fetch also swallows
rejections into `undefined`; on a 200 refresh of a URL containing
`script.google.com` it posts the `DATA_UPDATED` broadcast
(`notifyAboutUpdate`). -/

structure SWRResult where
  outcome : JsOutcome
  store : CacheStore
  notifiedUpdate : Bool
deriving DecidableEq, Repr

def staleWhileRevalidate (store : CacheStore) (req : Request) (net : FetchOutcome) :
    SWRResult :=
  let store0 := store.openCache API_CACHE
  let cached := (store0.partitionOf API_CACHE).matchKey req.url.href
  let store2 :=
    match net with
    | .ok r => if r.status == 200 then store0.put API_CACHE req.url.href r
               else store0
    | .fail => store0
  let notified :=
    match net with
    | .ok r => r.status == 200 && strContains req.url.href "script.google.com"
    | .fail => false
  match cached with
  | some c => ⟨.resolved (some c), store2, notified⟩
  | none =>
      match net with
      | .ok r => ⟨.resolved (some r), store2, notified⟩
      | .fail => ⟨.resolved none, store2, notified⟩

/-! Strategy 4: Google Apps Script endpoint (cache with 5-minute window),
`handleGoogleScript` in `sw.js`. -/

/-- Re-stamp a network response with the freshness header, as in
`headers.set("sw-cached-time", new Date().toISOString())` followed by
rebuilding the response from the same body, status and status text. -/
def stampResponse (r : Response) (t : Nat) : Response :=
  { r with headers := hset r.headers "sw-cached-time" (.time t) }

/-- The millisecond value of `new Date(cached.headers.get("sw-cached-time"))`:
a stored timestamp parses back to itself; a missing header yields `null`,
which `new Date` treats as the epoch; any other string yields an invalid
date (`NaN`), encoded as `none`. -/
def parsedCachedTime (r : Response) : Option Nat :=
  match hget r.headers "sw-cached-time" with
  | some (.time t) => some t
  | some (.str _) => none
  | none => some 0

/-- The freshness test `(now - cachedTime) / (1000 * 60) < 5`; with `NaN`
every comparison is false. -/
def isFresh (now : Nat) (r : Response) : Bool :=
  match parsedCachedTime r with
  | some t => (now : Int) - (t : Int) < 300000
  | none => false

structure GSResult where
  outcome : JsOutcome
  store : CacheStore
  syncFetch : Bool
deriving DecidableEq, Repr

/-- The shared tail of `handleGoogleScript` (stale entry or cold miss):
fetch synchronously, stamp and store on an ok status, otherwise fall back
to the possibly stale cached entry, else reject.  `tFetch` is the time at
which the fetch settles (the stamp written by `new Date().toISOString()`). -/
def gsSyncFetch (store0 : CacheStore) (req : Request) (cached : Option Response)
    (net : FetchOutcome) (tFetch : Nat) : GSResult :=
  match net with
  | .ok r =>
      if r.isOk then
        let stamped := stampResponse r tFetch
        ⟨.resolved (some stamped), store0.put API_CACHE req.url.href stamped, true⟩
      else
        match cached with
        | some c => ⟨.resolved (some c), store0, true⟩
        | none => ⟨.rejected, store0, true⟩
  | .fail =>
      match cached with
      | some c => ⟨.resolved (some c), store0, true⟩
      | none => ⟨.rejected, store0, true⟩

def handleGoogleScript (store : CacheStore) (req : Request) (now : Nat)
    (net : FetchOutcome) (tFetch : Nat) : GSResult :=
  let store0 := store.openCache API_CACHE
  let cached := (store0.partitionOf API_CACHE).matchKey req.url.href
  match cached with
  | some c =>
      if isFresh now c then
        let store2 :=
          match net with
          | .ok r => if r.isOk then store0.put API_CACHE req.url.href (stampResponse r tFetch)
                     else store0
          | .fail => store0
        ⟨.resolved (some c), store2, false⟩
      else
        gsSyncFetch store0 req (some c) net tFetch
  | none => gsSyncFetch store0 req none net tFetch

/-! Request classifier / router: the `fetch` event listener of `sw.js`. -/

/-- Static configuration the router consults besides the request:
`self.location.origin` of the service worker. -/
structure Config where
  selfOrigin : String
deriving DecidableEq, Repr

/-- One of the four strategy executors. -/
inductive Strategy where
  | networkFirst
  | timeWindowed
  | staleRevalidate
  | cacheFirst
deriving DecidableEq, Repr

/-- Routing decision: bypass (the listener returns without
`respondWith`), or a strategy together with the partition it writes. -/
inductive RouteDecision where
  | bypass
  | route (strat : Strategy) (partition : String)
deriving DecidableEq, Repr

/-- Rule 1, the exclusion list: foreign extension scheme, the ad service
worker script, the ad host path. -/
def isExcluded (u : Url) : Bool :=
  u.protocol == "chrome-extension:"
    || strContains u.href "service-worker.min.js"
    || strContains u.href "3nbf4.com/act/files/"

/-- Rule 2: top-level navigation. -/
def isNavigation (req : Request) : Bool :=
  req.mode == "navigate"

/-- Rule 3: the rate-limited Google Apps Script endpoint. -/
def isGoogleScript (u : Url) : Bool :=
  strContains u.href "script.google.com"

/-- Rule 4: generic API calls (query `action=` or path `/api/`). -/
def isGenericApi (u : Url) : Bool :=
  strContains u.search "action=" || strContains u.pathname "/api/"

/-- Extensions of the static asset regex
`\.(css|js|png|jpg|jpeg|gif|svg|woff|woff2|ttf|eot)$`. -/
def staticExtensions : List String :=
  [".css", ".js", ".png", ".jpg", ".jpeg", ".gif", ".svg",
   ".woff", ".woff2", ".ttf", ".eot"]

/-- Rule 5: same origin, allow-listed CDN and font hosts, or a
static-asset path extension. -/
def isStaticAsset (cfg : Config) (u : Url) : Bool :=
  u.origin == cfg.selfOrigin
    || strContains u.href "fonts.googleapis.com"
    || strContains u.href "fonts.gstatic.com"
    || strContains u.href "cdnjs.cloudflare.com"
    || staticExtensions.any (fun e => strEndsWith u.pathname e)

/-- The router: the if-cascade of the `fetch` listener, first match wins. -/
def classify (cfg : Config) (req : Request) : RouteDecision :=
  if isExcluded req.url then .bypass
  else if isNavigation req then .route .networkFirst CACHE_NAME
  else if isGoogleScript req.url then .route .timeWindowed API_CACHE
  else if isGenericApi req.url then .route .staleRevalidate API_CACHE
  else if isStaticAsset cfg req.url then .route .cacheFirst STATIC_CACHE
  else .route .networkFirst CACHE_NAME

/-- Spec-side router: the ordered rule list of section 4.1, resolved by a
generic first-match scan with the Network-First default. -/
def routeRules (cfg : Config) : List ((Request → Bool) × RouteDecision) :=
  [ (fun r => isExcluded r.url, .bypass),
    (fun r => isNavigation r, .route .networkFirst CACHE_NAME),
    (fun r => isGoogleScript r.url, .route .timeWindowed API_CACHE),
    (fun r => isGenericApi r.url, .route .staleRevalidate API_CACHE),
    (fun r => isStaticAsset cfg r.url, .route .cacheFirst STATIC_CACHE) ]

def firstMatch (req : Request) :
    List ((Request → Bool) × RouteDecision) → RouteDecision → RouteDecision
  | [], dflt => dflt
  | rule :: rest, dflt =>
      if rule.1 req then rule.2 else firstMatch req rest dflt

def routeSpec (cfg : Config) (req : Request) : RouteDecision :=
  firstMatch req (routeRules cfg) (.route .networkFirst CACHE_NAME)

/-- Full per-request flow: classify, then run the selected executor.
`notifiedUpdate` records whether the `DATA_UPDATED` broadcast was posted
while handling this request. -/
structure DispatchResult where
  intercepted : Bool
  outcome : JsOutcome
  store : CacheStore
  notifiedUpdate : Bool
deriving DecidableEq, Repr

def dispatch (cfg : Config) (store : CacheStore) (req : Request)
    (net : FetchOutcome) (now tFetch : Nat) : DispatchResult :=
  match classify cfg req with
  | .bypass => ⟨false, .resolved none, store, false⟩
  | .route .networkFirst _ =>
      let r := handleNavigation store req net
      ⟨true, r.outcome, r.store, false⟩
  | .route .timeWindowed _ =>
      let r := handleGoogleScript store req now net tFetch
      ⟨true, r.outcome, r.store, false⟩
  | .route .staleRevalidate _ =>
      let r := staleWhileRevalidate store req net
      ⟨true, r.outcome, r.store, r.notifiedUpdate⟩
  | .route .cacheFirst _ =>
      let r := cacheFirstWithUpdate store req net
      ⟨true, r.outcome, r.store, false⟩

/-! Lifecycle manager: the `install` and `activate` listeners. -/

def offlineHtmlBody : String :=
  "<!DOCTYPE html>" ++ "\n" ++
  "        <html lang=\"pt-MZ\">" ++ "\n" ++
  "        <head>" ++ "\n" ++
  "          <meta charset=\"UTF-8\">" ++ "\n" ++
  "          <meta name=\"viewport\" content=\"width=device-width, initial-scale=1.0\">" ++ "\n" ++
  "          <title>CFM - Offline</title>" ++ "\n" ++
  "          <style>" ++ "\n" ++
  "            body \x7b" ++ "\n" ++
  "              margin: 0;" ++ "\n" ++
  "              padding: 20px;" ++ "\n" ++
  "              background: linear-gradient(135deg, #4CAF50 0%, #2E7D32 100%);" ++ "\n" ++
  "              color: white;" ++ "\n" ++
  "              font-family: Roboto, sans-serif;" ++ "\n" ++
  "              height: 100vh;" ++ "\n" ++
  "              display: flex;" ++ "\n" ++
  "              flex-direction: column;" ++ "\n" ++
  "              justify-content: center;" ++ "\n" ++
  "              align-items: center;" ++ "\n" ++
  "              text-align: center;" ++ "\n" ++
  "            \x7d" ++ "\n" ++
  "            .logo \x7b" ++ "\n" ++
  "              width: 120px;" ++ "\n" ++
  "              height: 120px;" ++ "\n" ++
  "              margin-bottom: 30px;" ++ "\n" ++
  "              background: white;" ++ "\n" ++
  "              border-radius: 20px;" ++ "\n" ++
  "              display: flex;" ++ "\n" ++
  "              align-items: center;" ++ "\n" ++
  "              justify-content: center;" ++ "\n" ++
  "              font-size: 48px;" ++ "\n" ++
  "              color: #4CAF50;" ++ "\n" ++
  "            \x7d" ++ "\n" ++
  "            h1 \x7b" ++ "\n" ++
  "              margin: 0 0 20px 0;" ++ "\n" ++
  "              font-size: 24px;" ++ "\n" ++
  "            \x7d" ++ "\n" ++
  "            p \x7b" ++ "\n" ++
  "              margin: 0 0 30px 0;" ++ "\n" ++
  "              opacity: 0.9;" ++ "\n" ++
  "              max-width: 300px;" ++ "\n" ++
  "            \x7d" ++ "\n" ++
  "            .status \x7b" ++ "\n" ++
  "              background: rgba(255,255,255,0.2);" ++ "\n" ++
  "              padding: 10px 20px;" ++ "\n" ++
  "              border-radius: 10px;" ++ "\n" ++
  "              margin-top: 20px;" ++ "\n" ++
  "            \x7d" ++ "\n" ++
  "          </style>" ++ "\n" ++
  "        </head>" ++ "\n" ++
  "        <body>" ++ "\n" ++
  "          <div class=\"logo\">🚆</div>" ++ "\n" ++
  "          <h1>CFM Actualizações</h1>" ++ "\n" ++
  "          <p>Você está offline. As actualizações serão carregadas quando a conexão voltar.</p>" ++ "\n" ++
  "          <div class=\"status\">Modo Offline Activo</div>" ++ "\n" ++
  "        </body>" ++ "\n" ++
  "        </html>"

/-- The synthetic offline fallback document built during `install`
(`new Response(html, \x7bheaders: ...\x7d)`, default status 200). -/
def offlineResponse : Response :=
  { body := offlineHtmlBody,
    status := 200,
    statusText := "",
    headers := [("Content-Type", .str "text/html; charset=utf-8"),
                ("X-Offline", .str "true")] }

/-- `cache.addAll` succeeds only if every manifest fetch resolves with an
ok status. -/
def addAllOk (fetches : String → FetchOutcome) : Bool :=
  STATIC_ASSETS.all (fun u =>
    match fetches u with
    | .ok r => r.isOk
    | .fail => false)

/-- The batch write `cache.addAll` performs after all fetches succeed. -/
def seedAssets (fetches : String → FetchOutcome) (s : CacheStore) : CacheStore :=
  STATIC_ASSETS.foldl (fun acc u =>
    match fetches u with
    | .ok r => acc.put STATIC_CACHE u r
    | .fail => acc) s

structure InstallResult where
  succeeded : Bool
  store : CacheStore
deriving Repr

/-- The `install` listener: open the static and offline partitions, run
`staticCache.addAll(STATIC_ASSETS)` (all-or-nothing), then seed the
synthetic offline document.  A rejected `addAll` rejects the whole
`waitUntil` promise before the offline seeding runs. -/
def installStep (fetches : String → FetchOutcome) (store : CacheStore) :
    InstallResult :=
  let s1 := (store.openCache STATIC_CACHE).openCache OFFLINE_CACHE
  if addAllOk fetches then
    let s2 := seedAssets fetches s1
    ⟨true, s2.put OFFLINE_CACHE "./offline.html" offlineResponse⟩
  else
    ⟨false, s1⟩

/-- The `SW_ACTIVATED` broadcast payload. -/
structure ActivationMsg where
  msgType : String
  version : String
  timestamp : Nat
deriving DecidableEq, Repr

structure ActivateResult where
  store : CacheStore
  broadcasts : List ActivationMsg
deriving DecidableEq, Repr

/-- The allow-list of current partitions consulted during activation. -/
def currentCaches : List String :=
  [CACHE_NAME, STATIC_CACHE, API_CACHE, OFFLINE_CACHE]

/-- The `activate` listener: delete every partition whose name is not in
the allow-list, then post `SW_ACTIVATED` with version and timestamp to
each of the `clientCount` connected clients. -/
def activateStep (store : CacheStore) (clientCount : Nat) (now : Nat) :
    ActivateResult :=
  ⟨store.filter (fun c => currentCaches.contains c.1),
   List.replicate clientCount ⟨"SW_ACTIVATED", "3.0", now⟩⟩

/-! Control channel: the `message` listener. -/

/-- A structured reply posted over `event.ports[0]`. -/
inductive Reply where
  | cacheInfo (cacheNames : List String) (version : String)
  | updateChecked (status : String)
deriving DecidableEq, Repr

structure MessageResult where
  skipWaitingCalled : Bool
  store : CacheStore
  replies : List Reply
deriving DecidableEq, Repr

/-- The `message` listener switch: `SKIP_WAITING` calls `skipWaiting`,
`CLEAR_CACHE` deletes every partition, `GET_CACHE_INFO` and
`CHECK_UPDATE` post a reply over the reply channel. -/
def handleMessage (store : CacheStore) (msgType : String) : MessageResult :=
  if msgType == "SKIP_WAITING" then ⟨true, store, []⟩
  else if msgType == "CLEAR_CACHE" then ⟨false, [], []⟩
  else if msgType == "GET_CACHE_INFO" then
    ⟨false, store, [.cacheInfo (store.map (fun c => c.1)) "3.0"]⟩
  else if msgType == "CHECK_UPDATE" then
    ⟨false, store, [.updateChecked "checked"]⟩
  else ⟨false, store, []⟩

/-- Sample Google Apps Script request URL for concrete checks. -/
def gsKey : String := "https://script.google.com/macros/s/KEY/exec?action=getdata"

/-- Sample cached entry stamped at 1000 ms. -/
def gsEntry : Response := ⟨"rows-v1", 200, "OK", [("sw-cached-time", .time 1000)]⟩

/-- Sample API partition holding the stamped entry. -/
def gsStoreW : CacheStore := [(API_CACHE, [(gsKey, gsEntry)])]

/-- Sample request for the stamped entry. -/
def gsReqW : Request :=
  ⟨⟨gsKey, "https:", "https://script.google.com", "/macros/s/KEY/exec",
    "?action=getdata"⟩, "cors"⟩

/-! Claim C1: navigation fallback chain. -/

/-- Sample cached page used to exhibit the C1 fallback-source
discrepancy: it lives in the static partition, not the primary document
partition. -/
def navStaticEntry : Response := ⟨"cached-static-copy", 200, "OK", []⟩

/-- Sample store for C1: primary document partition absent, the request
key present only in the static partition, offline document seeded. -/
def navStoreW : CacheStore :=
  [(STATIC_CACHE, [("https://cfm.example/page", navStaticEntry)]),
   (OFFLINE_CACHE, [("./offline.html", offlineResponse)])]

/-- Sample navigation request for the C1 scenarios. -/
def navReqW : Request :=
  ⟨⟨"https://cfm.example/page", "https:", "https://cfm.example", "/page", ""⟩,
   "navigate"⟩

/-! Claim C3: Cache-First cold miss. -/

/-- Sample styled-asset request for the C3 scenarios. -/
def cfReqW : Request :=
  ⟨⟨"https://cfm.example/pwa-fullscreen.css", "https:", "https://cfm.example",
    "/pwa-fullscreen.css", ""⟩, "no-cors"⟩

/-! Claim C6: provisioning. -/

/-- Sample network behavior for C6: every manifest fetch succeeds except
`./index.html`. -/
def failingIndexFetches : String → FetchOutcome := fun u =>
  if u == "./index.html" then .fail else .ok ⟨"asset-bytes", 200, "OK", []⟩

/-! Claim C9: store/read round-trip and the freshness header. -/

/-- The parsed millisecond value of the freshness header of a stored
entry, when the entry carries one. -/
def stampOf (r : Response) : Option Nat :=
  match hget r.headers "sw-cached-time" with
  | some (.time t) => some t
  | _ => none

/-- Sample generic API request for the C9 counterexample. -/
def apiReqW : Request :=
  ⟨⟨"https://cfm.example/api/updates?action=list", "https:", "https://cfm.example",
    "/api/updates", "?action=list"⟩, "cors"⟩

/-- Sample API response without any freshness header. -/
def apiRespW : Response :=
  ⟨"rows-json", 200, "OK", [("Content-Type", .str "application/json")]⟩

/-! Theorems. -/

/-! Basic store lemmas. -/

theorem Partition.matchKey_putKey_self (p : Partition) (k : String) (r : Response) :
    (p.putKey k r).matchKey k = some r := by
  induction p with
  | nil => simp [Partition.putKey, Partition.matchKey]
  | cons a t ih =>
      by_cases h : a.1 = k
      · simp [Partition.putKey, Partition.matchKey, h]
      · simp [Partition.putKey, Partition.matchKey, h, ih]

theorem CacheStore.lookupKey_put_self (s : CacheStore) (name k : String) (r : Response) :
    (s.put name k r).lookupKey name k = some r := by
  induction s with
  | nil =>
      simp [CacheStore.put, CacheStore.lookupKey, CacheStore.partitionOf,
        Partition.matchKey]
  | cons c rest ih =>
      by_cases h : c.1 = name
      · simp [CacheStore.put, CacheStore.lookupKey, CacheStore.partitionOf, h,
          Partition.matchKey_putKey_self]
      · simpa [CacheStore.put, CacheStore.lookupKey, CacheStore.partitionOf, h]
          using ih

theorem CacheStore.partitionOf_openCache (s : CacheStore) (name : String) :
    (s.openCache name).partitionOf name = s.partitionOf name := by
  induction s with
  | nil => simp [CacheStore.openCache, CacheStore.partitionOf]
  | cons c rest ih =>
      by_cases h : c.1 = name
      · simp [CacheStore.openCache, CacheStore.partitionOf, h]
      · simp [CacheStore.openCache, CacheStore.partitionOf, h, ih]

theorem CacheStore.lookupKey_openCache_self (s : CacheStore) (name k : String) :
    (s.openCache name).lookupKey name k = s.lookupKey name k := by
  unfold CacheStore.lookupKey
  rw [CacheStore.partitionOf_openCache]

theorem hget_hset_self (h : HeaderMap) (k : String) (v : HVal) :
    hget (hset h k v) k = some v := by
  induction h with
  | nil => simp [hget, hset]
  | cons a t ih =>
      by_cases ha : a.1 = k
      · simp [hget, hset, ha]
      · simp [hget, hset, ha, ih]

theorem hget_hset_ne (h : HeaderMap) (k k2 : String) (v : HVal) (hne : k2 ≠ k) :
    hget (hset h k v) k2 = hget h k2 := by
  induction h with
  | nil => simp [hget, hset, Ne.symm hne]
  | cons a t ih =>
      by_cases ha : a.1 = k
      · have hb : ¬a.1 = k2 := fun hb => hne (hb ▸ ha)
        simp [hget, hset, ha, hb, Ne.symm hne]
      · by_cases hb : a.1 = k2
        · simp [hget, hset, ha, hb, hne]
        · simp [hget, hset, ha, hb, ih]

/-! Router lemmas. -/

theorem classify_staleRevalidate_not_google (cfg : Config) (req : Request)
    (p : String) (h : classify cfg req = .route .staleRevalidate p) :
    isGoogleScript req.url = false := by
  unfold classify at h
  by_cases h1 : isExcluded req.url
  · simp [h1] at h
  · by_cases h2 : isNavigation req
    · simp [h1, h2] at h
    · by_cases h3 : isGoogleScript req.url
      · simp [h1, h2, h3] at h
      · simpa using h3

theorem gsSyncFetch_syncFetch (store0 : CacheStore) (req : Request)
    (cached : Option Response) (net : FetchOutcome) (tFetch : Nat) :
    (gsSyncFetch store0 req cached net tFetch).syncFetch = true := by
  cases net with
  | ok r =>
      by_cases hr : r.isOk
      · simp [gsSyncFetch, hr]
      · cases cached <;> simp [gsSyncFetch, hr]
  | fail => cases cached <;> simp [gsSyncFetch]

theorem staleWhileRevalidate_notifiedUpdate (store : CacheStore) (req : Request)
    (net : FetchOutcome) (h : strContains req.url.href "script.google.com" = false) :
    (staleWhileRevalidate store req net).notifiedUpdate = false := by
  unfold staleWhileRevalidate
  cases hc : ((store.openCache API_CACHE).partitionOf API_CACHE).matchKey req.url.href with
  | some c => cases net <;> simp [hc, h]
  | none => cases net <;> simp [hc, h]

/-- Claim C2: the router is a pure function of the request descriptor and
the static configuration that yields exactly one decision — a strategy
and partition, or the bypass sentinel — and it equals the first-match
resolution of the ordered rule list: exclusion, navigation, rate-limited
third-party host, generic API, static asset or allow-listed host, and the
Network-First default. -/
theorem claim_C2 (cfg : Config) (req : Request) :
    classify cfg req = routeSpec cfg req := rfl

/-- Claim C10: no request dispatched by the router ever posts the
DATA_UPDATED broadcast: the only notifying branch lives in
Stale-While-Revalidate and fires on URLs containing the remote-update
host, but the router sends every such URL to the Time-Windowed strategy
first, so the branch is unreachable through routing. -/
theorem claim_C10 (cfg : Config) (store : CacheStore) (req : Request)
    (net : FetchOutcome) (now tFetch : Nat) :
    (dispatch cfg store req net now tFetch).notifiedUpdate = false := by
  unfold dispatch
  cases hc : classify cfg req with
  | bypass => simp
  | route s part =>
      cases s with
      | networkFirst => simp
      | timeWindowed => simp
      | cacheFirst => simp
      | staleRevalidate =>
          simp only []
          exact staleWhileRevalidate_notifiedUpdate store req net
            (classify_staleRevalidate_not_google cfg req part hc)

/-- Claim C4: when Stale-While-Revalidate finds a cached entry, the
response handed to the caller is exactly (byte for byte) the stored
entry, whatever the concurrent network fetch does — success, non-200
status, or failure. -/
theorem claim_C4 (store : CacheStore) (req : Request) (net : FetchOutcome)
    (e : Response)
    (h : (store.partitionOf API_CACHE).matchKey req.url.href = some e) :
    (staleWhileRevalidate store req net).outcome = .resolved (some e) := by
  simp only [staleWhileRevalidate, CacheStore.partitionOf_openCache, h]

/-- Witness for claim C4 at a concrete store, entry and failing fetch. -/
theorem claim_C4_witness :
    (staleWhileRevalidate
        [(API_CACHE, [("https://cfm.example/api/data?action=list",
                       ⟨"payload-v1", 200, "OK", []⟩)])]
        ⟨⟨"https://cfm.example/api/data?action=list", "https:",
          "https://cfm.example", "/api/data", "?action=list"⟩, "cors"⟩
        .fail).outcome
      = .resolved (some ⟨"payload-v1", 200, "OK", []⟩) :=
  claim_C4 _ _ _ _ (by decide)

/-- Claim C5: with the 5-minute window of the Time-Windowed strategy, an
entry stamped at T0 is returned unchanged (with no awaited fetch) for any
request at a time in the interval from T0 up to but excluding T0 plus
300000 ms, while from T0 plus 300000 ms on a synchronous fetch is
performed instead of returning the entry directly. -/
theorem claim_C5 (store : CacheStore) (req : Request) (e : Response)
    (t0 now tFetch : Nat) (net : FetchOutcome)
    (hc : (store.partitionOf API_CACHE).matchKey req.url.href = some e)
    (ht : hget e.headers "sw-cached-time" = some (.time t0)) :
    (t0 ≤ now → now < t0 + 300000 →
      (handleGoogleScript store req now net tFetch).outcome = .resolved (some e)
        ∧ (handleGoogleScript store req now net tFetch).syncFetch = false)
    ∧ (t0 + 300000 ≤ now →
      (handleGoogleScript store req now net tFetch).syncFetch = true) := by
  have hfresh : isFresh now e = decide ((now : Int) - (t0 : Int) < 300000) := by
    simp [isFresh, parsedCachedTime, ht]
  constructor
  · intro _ hlt
    have hf : isFresh now e = true := by
      rw [hfresh]
      simp only [decide_eq_true_eq]
      omega
    simp only [handleGoogleScript, CacheStore.partitionOf_openCache, hc, hf]
    cases net <;> simp
  · intro hge
    have hf : isFresh now e = false := by
      rw [hfresh]
      simp only [decide_eq_false_iff_not]
      omega
    simp only [handleGoogleScript, CacheStore.partitionOf_openCache, hc, hf]
    simp [gsSyncFetch_syncFetch]

/-- Witness for claim C5: an entry stamped at 1000 ms served from cache at
2000 ms, and fetched synchronously at 301000 ms. -/
theorem claim_C5_witness :
    ((handleGoogleScript gsStoreW gsReqW 2000 .fail 2000).outcome
      = .resolved (some gsEntry))
    ∧ ((handleGoogleScript gsStoreW gsReqW 2000 .fail 2000).syncFetch = false)
    ∧ ((handleGoogleScript gsStoreW gsReqW 301000 .fail 301000).syncFetch = true) :=
  ⟨((claim_C5 gsStoreW gsReqW gsEntry 1000 2000 2000 .fail (by decide) (by decide)).1
      (by decide) (by decide)).1,
   ((claim_C5 gsStoreW gsReqW gsEntry 1000 2000 2000 .fail (by decide) (by decide)).1
      (by decide) (by decide)).2,
   (claim_C5 gsStoreW gsReqW gsEntry 1000 301000 301000 .fail (by decide) (by decide)).2
      (by decide)⟩

set_option maxRecDepth 8192 in
/-- Counterexample to claim C1 as stated: with the network down, no entry
in the primary document partition, and the offline document seeded, the
strategy returns the entry found in the static partition — neither the
primary-partition entry (there is none) nor the offline fallback — because
the fallback lookup `caches.match` scans every partition. -/
theorem claim_C1_counterexample :
    (handleNavigation navStoreW navReqW .fail).outcome
        = .resolved (some navStaticEntry)
      ∧ navStoreW.lookupKey CACHE_NAME "https://cfm.example/page" = none
      ∧ navStaticEntry.body ≠ offlineResponse.body := by
  refine ⟨by decide, by decide, ?_⟩
  intro h
  exact absurd (congrArg (fun s => s.take 1) h) (by decide)

/-- Claim C1 (amended): the navigation strategy always resolves with a
response — the network response on fetch success, else the first matching
entry found in any cache partition, else the pre-seeded offline fallback
document — and never propagates a failure, provided the offline fallback
was seeded at provisioning time. -/
theorem claim_C1 (store : CacheStore) (req : Request) (net : FetchOutcome)
    (doc : Response)
    (hseed : store.lookupKey OFFLINE_CACHE "./offline.html" = some doc) :
    (handleNavigation store req net).outcome =
      .resolved (some (match net with
        | .ok r => r
        | .fail => (store.globalMatch req.url.href).getD doc)) := by
  cases net with
  | ok r => rfl
  | fail =>
      unfold handleNavigation
      cases hm : store.globalMatch req.url.href with
      | some c => simp
      | none => simp [CacheStore.lookupKey_openCache_self, hseed]

/-- Witness for claim C1: network down and a cold primary cache still
resolve with the seeded offline document. -/
theorem claim_C1_witness :
    (handleNavigation [(OFFLINE_CACHE, [("./offline.html", offlineResponse)])]
        navReqW .fail).outcome = .resolved (some offlineResponse) :=
  claim_C1 [(OFFLINE_CACHE, [("./offline.html", offlineResponse)])] navReqW .fail
    offlineResponse rfl

/-- Counterexample to claim C3 as stated: on a cold miss with a failing
fetch, Cache-First resolves with the value `undefined` swallowed by the
`.catch` handler of its background promise — a non-response value — and
does not propagate the failure as a rejection. -/
theorem claim_C3_counterexample :
    (cacheFirstWithUpdate [] cfReqW .fail).outcome = .resolved none
      ∧ (cacheFirstWithUpdate [] cfReqW .fail).outcome ≠ .rejected := by
  decide

/-- Claim C3 (amended): on a cold miss, Cache-First awaits the fetch; on
fetch success it returns the response, storing it only when the status is
exactly 200; on fetch failure the `.catch` handler swallows the rejection
and the strategy resolves with `undefined` instead of propagating the
failure. -/
theorem claim_C3 (store : CacheStore) (req : Request) (net : FetchOutcome)
    (h : store.globalMatch req.url.href = none) :
    (cacheFirstWithUpdate store req net).outcome =
        (match net with
         | .ok r => .resolved (some r)
         | .fail => .resolved none)
      ∧ (cacheFirstWithUpdate store req net).store =
        (match net with
         | .ok r => if r.status == 200 then store.put STATIC_CACHE req.url.href r
                    else store
         | .fail => store) := by
  cases net with
  | ok r => exact ⟨by simp [cacheFirstWithUpdate, h], by simp [cacheFirstWithUpdate, h]⟩
  | fail => exact ⟨by simp [cacheFirstWithUpdate, h], by simp [cacheFirstWithUpdate, h]⟩

/-- Witness for claim C3: a cold miss with a successful 200 fetch returns
and stores the network response. -/
theorem claim_C3_witness :
    (cacheFirstWithUpdate [] cfReqW (.ok ⟨"css-v2", 200, "OK", []⟩)).outcome
        = .resolved (some ⟨"css-v2", 200, "OK", []⟩)
      ∧ (cacheFirstWithUpdate [] cfReqW (.ok ⟨"css-v2", 200, "OK", []⟩)).store
        = CacheStore.put [] STATIC_CACHE cfReqW.url.href ⟨"css-v2", 200, "OK", []⟩ := by
  have h := claim_C3 [] cfReqW (.ok ⟨"css-v2", 200, "OK", []⟩) (by decide)
  exact ⟨h.1, by simpa using h.2⟩

set_option maxRecDepth 65536 in
/-- Counterexample to claim C6 as stated: when one manifest URL cannot be
fetched, provisioning fails as a whole, and the offline fallback document
was not seeded either — the offline sub-step runs sequentially after the
static seeding inside the same provisioning promise, so its execution is
gated, not independent. -/
theorem claim_C6_counterexample :
    (installStep failingIndexFetches []).succeeded = false
      ∧ (installStep failingIndexFetches []).store.lookupKey OFFLINE_CACHE
          "./offline.html" = none := by
  decide

/-- Claim C6 (amended): provisioning succeeds exactly when every manifest
URL fetch resolves with an ok status; on any manifest failure the whole
step fails with the static partition left exactly as before (no partial
seeding) and the offline fallback not seeded, because the offline
sub-step runs only after a successful static seeding and inside the same
gating promise (it is not an independent, non-gating sub-step). -/
theorem claim_C6 (fetches : String → FetchOutcome) (store : CacheStore) :
    ((installStep fetches store).succeeded = addAllOk fetches)
      ∧ (addAllOk fetches = false →
          (installStep fetches store).store
            = (store.openCache STATIC_CACHE).openCache OFFLINE_CACHE)
      ∧ (addAllOk fetches = true →
          (installStep fetches store).store.lookupKey OFFLINE_CACHE
            "./offline.html" = some offlineResponse) := by
  refine ⟨?_, ?_, ?_⟩
  · unfold installStep
    by_cases ha : addAllOk fetches <;> simp [ha]
  · intro ha
    simp [installStep, ha]
  · intro ha
    simp [installStep, ha, CacheStore.lookupKey_put_self]

set_option maxRecDepth 65536 in
/-- Witness for claim C6: with every manifest fetch succeeding,
provisioning succeeds and the offline document is seeded. -/
theorem claim_C6_witness :
    (installStep (fun _ => .ok ⟨"asset-bytes", 200, "OK", []⟩) []).store.lookupKey
        OFFLINE_CACHE "./offline.html" = some offlineResponse :=
  (claim_C6 (fun _ => .ok ⟨"asset-bytes", 200, "OK", []⟩) []).2.2 (by decide)

/-! Claim C7: version activation. -/

/-- Claim C7: activation keeps exactly the partitions named in the
current allow-list — an entry survives if and only if it was present and
its name is allow-listed, so every non-listed partition is deleted and
every listed one is untouched — and posts the SW_ACTIVATED broadcast,
carrying the version identifier and a timestamp, to every connected
client. -/
theorem claim_C7 (store : CacheStore) (clientCount now : Nat) :
    (∀ entry : String × Partition,
        entry ∈ (activateStep store clientCount now).store ↔
          (entry ∈ store ∧ entry.1 ∈ currentCaches))
      ∧ (activateStep store clientCount now).broadcasts
          = List.replicate clientCount ⟨"SW_ACTIVATED", "3.0", now⟩ := by
  refine ⟨fun entry => ?_, rfl⟩
  simp [activateStep, List.mem_filter]

/-- Witness for claim C7, shaped like the scenario of the claim: a store
holding an old-version static partition next to the current static and
API partitions keeps exactly the two current ones. -/
theorem claim_C7_witness :
    (("cfm-static-v1.8", ([] : Partition))
        ∈ (activateStep
            [("cfm-static-v1.8", []), (STATIC_CACHE, []), (API_CACHE, [])]
            2 777).store
      ↔ (("cfm-static-v1.8", ([] : Partition))
            ∈ [("cfm-static-v1.8", ([] : Partition)), (STATIC_CACHE, []), (API_CACHE, [])]
          ∧ "cfm-static-v1.8" ∈ currentCaches)) :=
  ((claim_C7 [("cfm-static-v1.8", []), (STATIC_CACHE, []), (API_CACHE, [])] 2 777).1
    ("cfm-static-v1.8", []))

/-! Claim C8: control channel replies. -/

/-- Counterexample to claim C8 as stated: the clear-caches command
deletes every partition but posts no reply over the reply channel. -/
theorem claim_C8_counterexample :
    (handleMessage [(CACHE_NAME, [("./", ⟨"page", 200, "OK", []⟩)])]
        "CLEAR_CACHE").replies = []
      ∧ (handleMessage [(CACHE_NAME, [("./", ⟨"page", 200, "OK", []⟩)])]
          "CLEAR_CACHE").store = [] := by
  decide

/-- Claim C8 (amended): of the control-channel commands other than
SKIP_WAITING, the cache-info and force-update-check commands send a
structured reply over the reply channel, but the clear-caches command
clears every partition without sending any reply. -/
theorem claim_C8 (store : CacheStore) :
    ((handleMessage store "GET_CACHE_INFO").replies
        = [.cacheInfo (store.map (fun c => c.1)) "3.0"])
      ∧ ((handleMessage store "CHECK_UPDATE").replies = [.updateChecked "checked"])
      ∧ ((handleMessage store "CLEAR_CACHE").replies = []
          ∧ (handleMessage store "CLEAR_CACHE").store = [])
      ∧ ((handleMessage store "SKIP_WAITING").replies = []
          ∧ (handleMessage store "SKIP_WAITING").skipWaitingCalled = true) :=
  ⟨rfl, rfl, ⟨rfl, rfl⟩, ⟨rfl, rfl⟩⟩

/-- Counterexample to claim C9 as stated: an entry stored by the
Stale-While-Revalidate strategy is stored verbatim and carries no
engine-injected freshness timestamp header, so the header is not present
on every entry stored by a strategy. -/
theorem claim_C9_counterexample :
    ((staleWhileRevalidate [] apiReqW (.ok apiRespW)).store.lookupKey API_CACHE
        apiReqW.url.href = some apiRespW)
      ∧ hget apiRespW.headers "sw-cached-time" = none := by
  decide

/-- Claim C9 (amended): for entries stored by the Time-Windowed-Refresh
strategy, immediately reading the key returns the stored entry with the
original body, status and every header preserved except the
engine-injected sw-cached-time header, which is set to the store time;
a later refresh past the window replaces the entry with one stamped at
the new store time, so stamps grow strictly across successive refreshes
performed at strictly increasing times.  Entries stored by the other
strategies are stored verbatim, with all headers preserved and no
injected header. -/
theorem claim_C9 (store : CacheStore) (req : Request) (r : Response)
    (now tFetch : Nat)
    (hmiss : (store.partitionOf API_CACHE).matchKey req.url.href = none)
    (hok : r.isOk = true) :
    ((handleGoogleScript store req now (.ok r) tFetch).store.lookupKey API_CACHE
        req.url.href = some (stampResponse r tFetch))
      ∧ (∀ k, k ≠ "sw-cached-time" →
          hget (stampResponse r tFetch).headers k = hget r.headers k)
      ∧ (stampOf (stampResponse r tFetch) = some tFetch)
      ∧ ((stampResponse r tFetch).body = r.body
          ∧ (stampResponse r tFetch).status = r.status)
      ∧ (∀ now2 r2 tFetch2, tFetch + 300000 ≤ now2 → r2.isOk = true →
          ((handleGoogleScript
              (handleGoogleScript store req now (.ok r) tFetch).store
              req now2 (.ok r2) tFetch2).store.lookupKey API_CACHE req.url.href
            = some (stampResponse r2 tFetch2))
          ∧ (tFetch < tFetch2 →
              (stampOf (stampResponse r tFetch)).getD 0
                < (stampOf (stampResponse r2 tFetch2)).getD 0)) := by
  have hstamp : ∀ (x : Response) (t : Nat), stampOf (stampResponse x t) = some t := by
    intro x t
    simp [stampOf, stampResponse, hget_hset_self]
  have hstore1 : (handleGoogleScript store req now (.ok r) tFetch).store
      = (store.openCache API_CACHE).put API_CACHE req.url.href
          (stampResponse r tFetch) := by
    simp [handleGoogleScript, CacheStore.partitionOf_openCache, hmiss,
      gsSyncFetch, hok]
  refine ⟨?_, ?_, hstamp r tFetch, ⟨rfl, rfl⟩, ?_⟩
  · rw [hstore1]
    exact CacheStore.lookupKey_put_self _ _ _ _
  · intro k hk
    exact hget_hset_ne r.headers "sw-cached-time" k (.time tFetch) hk
  · intro now2 r2 tFetch2 hwin hok2
    have hcached2 :
        ((handleGoogleScript store req now (.ok r) tFetch).store.partitionOf
            API_CACHE).matchKey req.url.href = some (stampResponse r tFetch) := by
      rw [hstore1]
      exact CacheStore.lookupKey_put_self _ _ _ _
    have hstale : isFresh now2 (stampResponse r tFetch) = false := by
      simp only [isFresh, parsedCachedTime, stampResponse, hget_hset_self,
        decide_eq_false_iff_not]
      omega
    have h2 : ∀ s : CacheStore,
        (s.partitionOf API_CACHE).matchKey req.url.href
            = some (stampResponse r tFetch) →
        (handleGoogleScript s req now2 (.ok r2) tFetch2).store
          = (s.openCache API_CACHE).put API_CACHE req.url.href
              (stampResponse r2 tFetch2) := by
      intro s hs
      simp [handleGoogleScript, CacheStore.partitionOf_openCache, hs, hstale,
        gsSyncFetch, hok2]
    constructor
    · rw [h2 _ hcached2]
      exact CacheStore.lookupKey_put_self _ _ _ _
    · intro hlt
      rw [hstamp r tFetch, hstamp r2 tFetch2]
      simpa using hlt

/-- Witness for claim C9: a cold-miss store at 1000 ms followed by a
refresh at 302000 ms round-trips the stamped entries. -/
theorem claim_C9_witness :
    ((handleGoogleScript [] gsReqW 1000 (.ok ⟨"rows-v1", 200, "OK", []⟩) 1000).store.lookupKey
        API_CACHE gsReqW.url.href
      = some (stampResponse ⟨"rows-v1", 200, "OK", []⟩ 1000))
    ∧ (stampOf (stampResponse ⟨"rows-v1", 200, "OK", []⟩ 1000) = some 1000) :=
  ⟨(claim_C9 [] gsReqW ⟨"rows-v1", 200, "OK", []⟩ 1000 1000 (by decide) (by decide)).1,
   (claim_C9 [] gsReqW ⟨"rows-v1", 200, "OK", []⟩ 1000 1000 (by decide) (by decide)).2.2.1⟩

end CFM
